import Mathlib

/-!
Shallow embedding of `kvm-vm-tune` (main.go), a CLI tool that reconfigures
KVM virtual-machine resources by orchestrating external `virsh`, `qemu-img`,
`virt-resize`, `mv` and `rm` commands.

External commands are modelled by an environment (oracle) fixing the
outcome of each command, the filesystem is a map from paths to optional contents,
and every operation returns, besides its result, the trace of external
commands it executed.  The source tree carries two variants of the disk
subcommand driver (`runDiskCommand`): the standalone variant with an
interactive confirmation prompt, and the libvirtwrap variant with a disk
ownership check; both are embedded, suffixed V1 and V2.
-/

namespace KvmVmTune

/-- Result of running an external command: success flag, the error text Go
would render for `err`, and the captured combined output. -/
structure CmdResult where
  ok : Bool
  errText : String
  output : String
deriving Repr, DecidableEq

/-- Filesystem state: path to optional file content. -/
def FS : Type := String → Option String

/-- Point update of a filesystem (`none` deletes the path). -/
def fsSet (fs : FS) (p : String) (v : Option String) : FS :=
  fun q => if q = p then v else fs q

/-- External commands issued by `resizeAndExpandDisk` (main.go lines 209-251). -/
inductive PipeCmd
  | create (path sz : String)
  | virtResize (dev src dst : String)
  | mv (src dst : String)
  | rm (path : String)
deriving Repr, DecidableEq

/-- Oracle for the disk pipeline: outcome of each external command,
plus the content each successful step leaves in the new image. -/
structure DiskEnv where
  createRes : CmdResult
  createContent : String
  resizeRes : CmdResult
  resizeContent : String
  mvOk : Bool
  mvErrText : String
  rmRes : CmdResult
deriving Repr

/-- Result of one run of the disk pipeline. -/
structure PipeResult where
  fs : FS
  trace : List PipeCmd
  error : Option String

/-- Embedding of `resizeAndExpandDisk` (main.go lines 209-251):
create the artifact at `imagePath ++ ".new"`, run `virt-resize` from the
original into it, then `mv` it over the original; on a resize or move
failure, attempt `rm` of the artifact and render the error
strings of the source, appending the removal diagnostic when the `rm` also failed. -/
def resizeAndExpandDisk (env : DiskEnv) (fs : FS)
    (imagePath device : String) (partition : Int) (newSize : String) :
    PipeResult :=
  let newImagePath := imagePath ++ ".new"
  let trace0 := [PipeCmd.create newImagePath newSize]
  if env.createRes.ok = false then
    { fs := fs, trace := trace0,
      error := some ("failed to create new image: " ++ env.createRes.errText
        ++ ", output: " ++ env.createRes.output) }
  else
    let fs1 := fsSet fs newImagePath (some env.createContent)
    let trace1 := trace0 ++
      [PipeCmd.virtResize ("/dev/" ++ device ++ toString partition) imagePath newImagePath]
    if env.resizeRes.ok = false then
      let trace2 := trace1 ++ [PipeCmd.rm newImagePath]
      if env.rmRes.ok = false then
        { fs := fs1, trace := trace2,
          error := some ("virt-resize failed: " ++ env.resizeRes.errText
            ++ ", output: " ++ env.resizeRes.output
            ++ ". Additionally, failed to remove new image: " ++ env.rmRes.errText
            ++ ", output: " ++ env.rmRes.output) }
      else
        { fs := fsSet fs1 newImagePath none, trace := trace2,
          error := some ("virt-resize failed: " ++ env.resizeRes.errText
            ++ ", output: " ++ env.resizeRes.output ++ ". New image was removed.") }
    else
      let fs2 := fsSet fs1 newImagePath (some env.resizeContent)
      let trace2 := trace1 ++ [PipeCmd.mv newImagePath imagePath]
      if env.mvOk = false then
        let trace3 := trace2 ++ [PipeCmd.rm newImagePath]
        if env.rmRes.ok = false then
          { fs := fs2, trace := trace3,
            error := some ("failed to replace original image: " ++ env.mvErrText
              ++ ". Additionally, failed to remove new image: " ++ env.rmRes.errText
              ++ ", output: " ++ env.rmRes.output) }
        else
          { fs := fsSet fs2 newImagePath none, trace := trace3,
            error := some ("failed to replace original image: " ++ env.mvErrText
              ++ ". New image was removed.") }
      else
        { fs := fsSet (fsSet fs2 imagePath (fs2 newImagePath)) newImagePath none,
          trace := trace2, error := none }

/-- A string `s` contains `sub` as a contiguous substring. -/
def strContains (s sub : String) : Prop :=
  ∃ a b : List Char, s.data = a ++ sub.data ++ b

lemma self_ne_append_new (s : String) : s ≠ s ++ ".new" := by
  intro h
  have hlen := congrArg (fun t : String => t.data.length) h
  simp [String.data_append] at hlen

/-- Embedding of Go `strings.Split(s, "\n")` on character lists. -/
def splitNl : List Char → List (List Char)
  | [] => [[]]
  | c :: cs =>
    match splitNl cs with
    | [] => [[]]
    | h :: t => if c = '\n' then [] :: h :: t else (c :: h) :: t

/-- Embedding of Go `strings.TrimSpace` on character lists. -/
def trimSpace (s : List Char) : List Char :=
  ((s.dropWhile Char.isWhitespace).reverse.dropWhile Char.isWhitespace).reverse

/-- Embedding of `isVMStopped` (main.go lines 192-207): run
`virsh list --name --state-running`; on command failure return `false`;
otherwise return `true` iff no line of the trimmed output equals the VM
name.  The query result is `none` when the external command failed, else
`some` of its raw standard output. -/
def isVMStopped (queryRes : Option String) (vmName : String) : Bool :=
  match queryRes with
  | none => false
  | some output =>
    (splitNl (trimSpace output.data)).all (fun vm => vm != vmName.data)

/-- Disk entry parsed from `virsh dumpxml` (struct `DomainDisk`). -/
structure DomainDisk where
  device : String
  sourceFile : String
  targetDev : String
deriving Repr, DecidableEq

/-- Oracle for `getVMDisks`: whether `virsh dumpxml` succeeded, whether its
output parsed as XML, and the parsed disk list. -/
structure DumpXMLEnv where
  cmdOk : Bool
  parseOk : Bool
  disks : List DomainDisk
deriving Repr

/-- Embedding of `getVMDisks` (main.go lines 173-190). -/
def getVMDisks (env : DumpXMLEnv) : Except String (List DomainDisk) :=
  if env.cmdOk = false then .error ("failed to execute virsh dumpxml")
  else if env.parseOk = false then .error ("failed to parse XML")
  else if env.disks = [] then .error ("no disks found")
  else .ok env.disks

/-- Embedding of `printResizeCommand` (main.go lines 287-293): the three
command lines printed in dry-run mode, in pipeline order. -/
def printResizeCommand (imagePath device : String) (partition : Int)
    (newSize : String) : List String :=
  let newImagePath := imagePath ++ ".new"
  [ "Command: sudo qemu-img create -f qcow2 -o preallocation=metadata "
      ++ newImagePath ++ " " ++ newSize,
    "Command: sudo virt-resize --expand /dev/" ++ device ++ toString partition
      ++ " " ++ imagePath ++ " " ++ newImagePath,
    "Command: sudo mv " ++ newImagePath ++ " " ++ imagePath ]

/-- Flag values of the `disk` subcommand (main.go lines 58-74). -/
structure DiskFlags where
  image : String
  device : String
  partition : Int
  size : String
  dryRun : Bool
deriving Repr, DecidableEq

/-- External calls issued by the standalone disk driver. -/
inductive ExtCall
  | dumpxml (vm : String)
  | listRunning
  | pipe (c : PipeCmd)
deriving Repr, DecidableEq

/-- Terminal outcome of the standalone disk driver, one constructor per
exit path of `runDiskCommand` (main.go lines 121-171). -/
inductive DiskOutcome
  | success
  | cancelled
  | dryRunShown
  | failGetDisks (msg : String)
  | failNoDisks
  | failVMRunning
  | failNoSize
  | failPipeline (msg : String)
deriving Repr, DecidableEq

/-- Process exit status of each outcome: success, cancellation and dry-run
exit 0, every failure exits 1. -/
def exitCode : DiskOutcome → Nat
  | .success => 0
  | .cancelled => 0
  | .dryRunShown => 0
  | _ => 1

/-- Environment of the standalone disk driver: the dumpxml oracle, the raw
output of `virsh list --name --state-running` (`none` when that command
failed), the line read from standard input at the confirmation prompt, the
pipeline oracle and the initial filesystem. -/
structure EnvV1 where
  xml : DumpXMLEnv
  listRunningRes : Option String
  stdinLine : String
  disk : DiskEnv
  fs : FS

/-- Result of one run of the standalone disk driver. -/
structure V1Result where
  outcome : DiskOutcome
  trace : List ExtCall
  fs : FS
  preview : List String

/-- The confirmation response computed from the standard-input line, as
`runDiskCommand` computes it (main.go line 159): trimmed then lowered. -/
def confirmResponse (line : String) : List Char :=
  (trimSpace line.data).map Char.toLower

/-- The response is one of the two accepted affirmative answers. -/
def affirmative (line : String) : Prop :=
  confirmResponse line = "y".data ∨ confirmResponse line = "yes".data

instance (line : String) : Decidable (affirmative line) := by
  unfold affirmative
  infer_instance

/-- Tail of the standalone `runDiskCommand` (main.go lines 137-171), run
once the image path has been resolved: check the VM is stopped, check a
size was given, in dry-run print the pipeline preview, otherwise require a
`y`/`yes` confirmation (trimmed, lowered) and run `resizeAndExpandDisk`. -/
def diskAfterImage (vmName : String) (flags : DiskFlags) (env : EnvV1)
    (imagePath : String) (trace0 : List ExtCall) : V1Result :=
  let trace1 := trace0 ++ [ExtCall.listRunning]
  if isVMStopped env.listRunningRes vmName = false then
    { outcome := .failVMRunning, trace := trace1, fs := env.fs, preview := [] }
  else if flags.size = "" then
    { outcome := .failNoSize, trace := trace1, fs := env.fs, preview := [] }
  else if flags.dryRun then
    { outcome := .dryRunShown, trace := trace1, fs := env.fs,
      preview := printResizeCommand imagePath flags.device flags.partition flags.size }
  else
    let response := confirmResponse env.stdinLine
    if response ≠ "y".data ∧ response ≠ "yes".data then
      { outcome := .cancelled, trace := trace1, fs := env.fs, preview := [] }
    else
      let r := resizeAndExpandDisk env.disk env.fs imagePath
        flags.device flags.partition flags.size
      { outcome := match r.error with
          | none => .success
          | some e => .failPipeline e,
        trace := trace1 ++ r.trace.map ExtCall.pipe,
        fs := r.fs, preview := [] }

/-- Embedding of the standalone `runDiskCommand` (main.go lines 121-171):
default the image from `getVMDisks` when the flag is empty, then run
`diskAfterImage`. -/
def runDiskCommandV1 (vmName : String) (flags : DiskFlags) (env : EnvV1) :
    V1Result :=
  if flags.image = "" then
    match getVMDisks env.xml with
    | .error e =>
      { outcome := .failGetDisks e, trace := [ExtCall.dumpxml vmName],
        fs := env.fs, preview := [] }
    | .ok disks =>
      match disks with
      | [] =>
        { outcome := .failNoDisks, trace := [ExtCall.dumpxml vmName],
          fs := env.fs, preview := [] }
      | d :: _ => diskAfterImage vmName flags env d.sourceFile [ExtCall.dumpxml vmName]
  else diskAfterImage vmName flags env flags.image []

/-- Calls to `virsh` issued by the CPU and memory mutators. -/
inductive VirshCall
  | setvcpusMax (vm : String) (count : Int)
  | setvcpusCur (vm : String) (count : Int)
  | setmaxmem (vm : String) (size : String)
  | setmem (vm : String) (size : String)
deriving Repr, DecidableEq

/-- Oracle for a two-call mutator: outcome of the maximum call and of the
current call. -/
structure TwoCallEnv where
  maxRes : CmdResult
  curRes : CmdResult
deriving Repr

/-- Embedding of `changeCPUCount` (main.go lines 253-265): set the maximum
vCPU count, then the current one; a failed first call stops the second. -/
def changeCPUCount (env : TwoCallEnv) (vmName : String) (cpuCount : Int) :
    List VirshCall × Option String :=
  let t1 := [VirshCall.setvcpusMax vmName cpuCount]
  if env.maxRes.ok = false then
    (t1, some ("failed to set maximum CPU count: " ++ env.maxRes.errText))
  else
    let t2 := t1 ++ [VirshCall.setvcpusCur vmName cpuCount]
    if env.curRes.ok = false then
      (t2, some ("failed to set current CPU count: " ++ env.curRes.errText))
    else (t2, none)

/-- Embedding of `changeMemorySize` (main.go lines 267-281): set the
maximum memory, then the current one; a failed first call stops the
second. -/
def changeMemorySize (env : TwoCallEnv) (vmName memorySize : String) :
    List VirshCall × Option String :=
  let t1 := [VirshCall.setmaxmem vmName memorySize]
  if env.maxRes.ok = false then
    (t1, some ("failed to set maximum memory: " ++ env.maxRes.errText
      ++ ", output: " ++ env.maxRes.output))
  else
    let t2 := t1 ++ [VirshCall.setmem vmName memorySize]
    if env.curRes.ok = false then
      (t2, some ("failed to set current memory: " ++ env.curRes.errText
        ++ ", output: " ++ env.curRes.output))
    else (t2, none)

/-- External calls issued by the libvirtwrap disk driver. -/
inductive ExtCall2
  | getDiskPaths (vm : String)
  | isRunningQ (vm : String)
  | verifyDisk (vm path : String)
  | pipelineCall (imagePath device : String) (partition : Int) (size : String)
deriving Repr, DecidableEq

/-- Terminal outcome of the libvirtwrap disk driver, one constructor per
exit path of its `runDiskCommand` (main.go lines 400-455). -/
inductive OutcomeV2
  | success
  | dryRunShown
  | failGetDisks
  | failNoDisks
  | failStatusCheck
  | failVMRunning
  | failNoSize
  | failOwnershipCheck
  | failOwnershipMismatch
  | failPipeline (msg : String)
deriving Repr, DecidableEq

/-- Environment of the libvirtwrap disk driver.  Each `none` marks the
corresponding external call returning an error; `pipelineRes = none`
marks a successful pipeline run. -/
structure EnvV2 where
  diskPaths : Option (List String)
  isRunningRes : Option Bool
  belongsRes : Option Bool
  pipelineRes : Option String
deriving Repr

/-- Result of one run of the libvirtwrap disk driver. -/
structure V2Result where
  outcome : OutcomeV2
  trace : List ExtCall2
deriving Repr, DecidableEq

/-- Tail of the libvirtwrap `runDiskCommand` (main.go lines 418-455), run
once the image path has been resolved: check the VM is stopped via
`IsRunning`, check a size was given, in dry-run print a note, otherwise
verify disk ownership via `VerifyDiskBelongsToVM` and run
`disk.ResizeAndExpandDisk`. -/
def diskAfterImageV2 (vmName : String) (flags : DiskFlags) (env : EnvV2)
    (imagePath : String) (trace0 : List ExtCall2) : V2Result :=
  let trace1 := trace0 ++ [ExtCall2.isRunningQ vmName]
  match env.isRunningRes with
  | none => { outcome := .failStatusCheck, trace := trace1 }
  | some true => { outcome := .failVMRunning, trace := trace1 }
  | some false =>
    if flags.size = "" then { outcome := .failNoSize, trace := trace1 }
    else if flags.dryRun then { outcome := .dryRunShown, trace := trace1 }
    else
      let trace2 := trace1 ++ [ExtCall2.verifyDisk vmName imagePath]
      match env.belongsRes with
      | none => { outcome := .failOwnershipCheck, trace := trace2 }
      | some false => { outcome := .failOwnershipMismatch, trace := trace2 }
      | some true =>
        let trace3 := trace2 ++
          [ExtCall2.pipelineCall imagePath flags.device flags.partition flags.size]
        match env.pipelineRes with
        | none => { outcome := .success, trace := trace3 }
        | some e => { outcome := .failPipeline e, trace := trace3 }

/-- Embedding of the libvirtwrap `runDiskCommand` driver entry: default
the image from `GetVMDiskPaths` when the flag is empty, then run
`diskAfterImageV2`. -/
def runDiskCommandV2 (vmName : String) (flags : DiskFlags) (env : EnvV2) :
    V2Result :=
  if flags.image = "" then
    match env.diskPaths with
    | none => { outcome := .failGetDisks, trace := [ExtCall2.getDiskPaths vmName] }
    | some [] => { outcome := .failNoDisks, trace := [ExtCall2.getDiskPaths vmName] }
    | some (p :: _) => diskAfterImageV2 vmName flags env p [ExtCall2.getDiskPaths vmName]
  else diskAfterImageV2 vmName flags env flags.image []

lemma strContains_refl (s : String) : strContains s s :=
  ⟨[], [], by simp⟩

lemma strContains_appL {s sub : String} (t : String) (h : strContains s sub) :
    strContains (s ++ t) sub := by
  obtain ⟨a, b, hab⟩ := h
  exact ⟨a, b ++ t.data, by simp [String.data_append, hab]⟩

lemma strContains_appR {s sub : String} (t : String) (h : strContains s sub) :
    strContains (t ++ s) sub := by
  obtain ⟨a, b, hab⟩ := h
  exact ⟨t.data ++ a, b, by simp [String.data_append, hab]⟩

/-- Exhaustive case analysis of `diskAfterImage`: exactly one of the five
exit paths of the resolved-image tail of the standalone driver applies. -/
lemma diskAfterImage_cases (vmName : String) (flags : DiskFlags) (env : EnvV1)
    (ip : String) (pre : List ExtCall) :
    (isVMStopped env.listRunningRes vmName = false ∧
      diskAfterImage vmName flags env ip pre =
        { outcome := .failVMRunning, trace := pre ++ [ExtCall.listRunning],
          fs := env.fs, preview := [] })
    ∨ (isVMStopped env.listRunningRes vmName = true ∧ flags.size = "" ∧
      diskAfterImage vmName flags env ip pre =
        { outcome := .failNoSize, trace := pre ++ [ExtCall.listRunning],
          fs := env.fs, preview := [] })
    ∨ (isVMStopped env.listRunningRes vmName = true ∧ flags.size ≠ "" ∧
      flags.dryRun = true ∧
      diskAfterImage vmName flags env ip pre =
        { outcome := .dryRunShown, trace := pre ++ [ExtCall.listRunning],
          fs := env.fs,
          preview := printResizeCommand ip flags.device flags.partition flags.size })
    ∨ (isVMStopped env.listRunningRes vmName = true ∧ flags.size ≠ "" ∧
      flags.dryRun = false ∧ ¬ affirmative env.stdinLine ∧
      diskAfterImage vmName flags env ip pre =
        { outcome := .cancelled, trace := pre ++ [ExtCall.listRunning],
          fs := env.fs, preview := [] })
    ∨ (isVMStopped env.listRunningRes vmName = true ∧ flags.size ≠ "" ∧
      flags.dryRun = false ∧ affirmative env.stdinLine ∧
      diskAfterImage vmName flags env ip pre =
        { outcome :=
            match (resizeAndExpandDisk env.disk env.fs ip
                flags.device flags.partition flags.size).error with
            | none => .success
            | some e => .failPipeline e,
          trace := (pre ++ [ExtCall.listRunning]) ++
            (resizeAndExpandDisk env.disk env.fs ip
              flags.device flags.partition flags.size).trace.map ExtCall.pipe,
          fs := (resizeAndExpandDisk env.disk env.fs ip
            flags.device flags.partition flags.size).fs,
          preview := [] }) := by
  cases hst : isVMStopped env.listRunningRes vmName
  · exact Or.inl ⟨rfl, by simp [diskAfterImage, hst]⟩
  · by_cases hsz : flags.size = ""
    · exact Or.inr (Or.inl ⟨rfl, hsz, by simp [diskAfterImage, hst, hsz]⟩)
    · cases hdry : flags.dryRun
      · by_cases haff : affirmative env.stdinLine
        · refine Or.inr (Or.inr (Or.inr (Or.inr ⟨rfl, hsz, rfl, haff, ?_⟩)))
          have hcond : ¬ (confirmResponse env.stdinLine ≠ "y".data ∧
              confirmResponse env.stdinLine ≠ "yes".data) := by
            rcases haff with h | h
            · exact fun hp => hp.1 h
            · exact fun hp => hp.2 h
          simp [diskAfterImage, hst, hsz, hdry, hcond]
        · refine Or.inr (Or.inr (Or.inr (Or.inl ⟨rfl, hsz, rfl, haff, ?_⟩)))
          have hcond : confirmResponse env.stdinLine ≠ "y".data ∧
              confirmResponse env.stdinLine ≠ "yes".data := by
            constructor
            · exact fun h => haff (Or.inl h)
            · exact fun h => haff (Or.inr h)
          simp [diskAfterImage, hst, hsz, hdry, hcond.1, hcond.2]
      · exact Or.inr (Or.inr (Or.inl ⟨rfl, hsz, rfl, by simp [diskAfterImage, hst, hsz, hdry]⟩))

/-- Exhaustive case analysis of the image-resolution head of the
standalone driver. -/
lemma runDiskCommandV1_cases (vmName : String) (flags : DiskFlags) (env : EnvV1) :
    (flags.image = "" ∧ ∃ e, getVMDisks env.xml = .error e ∧
      runDiskCommandV1 vmName flags env =
        { outcome := .failGetDisks e, trace := [ExtCall.dumpxml vmName],
          fs := env.fs, preview := [] })
    ∨ (flags.image = "" ∧ getVMDisks env.xml = .ok [] ∧
      runDiskCommandV1 vmName flags env =
        { outcome := .failNoDisks, trace := [ExtCall.dumpxml vmName],
          fs := env.fs, preview := [] })
    ∨ (∃ ip pre,
        ((flags.image ≠ "" ∧ ip = flags.image ∧ pre = ([] : List ExtCall))
          ∨ (flags.image = "" ∧ pre = [ExtCall.dumpxml vmName] ∧
              ∃ d rest, getVMDisks env.xml = .ok (d :: rest) ∧ ip = d.sourceFile))
        ∧ runDiskCommandV1 vmName flags env = diskAfterImage vmName flags env ip pre) := by
  by_cases himg : flags.image = ""
  · rcases hgd : getVMDisks env.xml with e | ds
    · exact Or.inl ⟨himg, e, rfl, by simp [runDiskCommandV1, himg, hgd]⟩
    · rcases ds with _ | ⟨d, rest⟩
      · exact Or.inr (Or.inl ⟨himg, rfl, by simp [runDiskCommandV1, himg, hgd]⟩)
      · exact Or.inr (Or.inr ⟨d.sourceFile, [ExtCall.dumpxml vmName],
          Or.inr ⟨himg, rfl, d, rest, rfl, rfl⟩, by simp [runDiskCommandV1, himg, hgd]⟩)
  · exact Or.inr (Or.inr ⟨flags.image, [],
      Or.inl ⟨himg, rfl, rfl⟩, by simp [runDiskCommandV1, himg]⟩)

/-- Exhaustive case analysis of `diskAfterImageV2`: exactly one of the
seven exit paths of the resolved-image tail of the libvirtwrap driver
applies. -/
lemma diskAfterImageV2_cases (vmName : String) (flags : DiskFlags) (env : EnvV2)
    (ip : String) (pre : List ExtCall2) :
    (env.isRunningRes = none ∧
      diskAfterImageV2 vmName flags env ip pre =
        { outcome := .failStatusCheck, trace := pre ++ [ExtCall2.isRunningQ vmName] })
    ∨ (env.isRunningRes = some true ∧
      diskAfterImageV2 vmName flags env ip pre =
        { outcome := .failVMRunning, trace := pre ++ [ExtCall2.isRunningQ vmName] })
    ∨ (env.isRunningRes = some false ∧ flags.size = "" ∧
      diskAfterImageV2 vmName flags env ip pre =
        { outcome := .failNoSize, trace := pre ++ [ExtCall2.isRunningQ vmName] })
    ∨ (env.isRunningRes = some false ∧ flags.size ≠ "" ∧ flags.dryRun = true ∧
      diskAfterImageV2 vmName flags env ip pre =
        { outcome := .dryRunShown, trace := pre ++ [ExtCall2.isRunningQ vmName] })
    ∨ (env.isRunningRes = some false ∧ flags.size ≠ "" ∧ flags.dryRun = false ∧
      env.belongsRes = none ∧
      diskAfterImageV2 vmName flags env ip pre =
        { outcome := .failOwnershipCheck,
          trace := (pre ++ [ExtCall2.isRunningQ vmName]) ++ [ExtCall2.verifyDisk vmName ip] })
    ∨ (env.isRunningRes = some false ∧ flags.size ≠ "" ∧ flags.dryRun = false ∧
      env.belongsRes = some false ∧
      diskAfterImageV2 vmName flags env ip pre =
        { outcome := .failOwnershipMismatch,
          trace := (pre ++ [ExtCall2.isRunningQ vmName]) ++ [ExtCall2.verifyDisk vmName ip] })
    ∨ (env.isRunningRes = some false ∧ flags.size ≠ "" ∧ flags.dryRun = false ∧
      env.belongsRes = some true ∧
      diskAfterImageV2 vmName flags env ip pre =
        { outcome :=
            match env.pipelineRes with
            | none => .success
            | some e => .failPipeline e,
          trace := ((pre ++ [ExtCall2.isRunningQ vmName]) ++ [ExtCall2.verifyDisk vmName ip])
            ++ [ExtCall2.pipelineCall ip flags.device flags.partition flags.size] }) := by
  rcases hrun : env.isRunningRes with _ | b
  · exact Or.inl ⟨rfl, by simp [diskAfterImageV2, hrun]⟩
  · cases b
    · by_cases hsz : flags.size = ""
      · exact Or.inr (Or.inr (Or.inl ⟨rfl, hsz, by simp [diskAfterImageV2, hrun, hsz]⟩))
      · cases hdry : flags.dryRun
        · rcases hbel : env.belongsRes with _ | c
          · exact Or.inr (Or.inr (Or.inr (Or.inr (Or.inl
              ⟨rfl, hsz, rfl, rfl, by simp [diskAfterImageV2, hrun, hsz, hdry, hbel]⟩))))
          · cases c
            · exact Or.inr (Or.inr (Or.inr (Or.inr (Or.inr (Or.inl
                ⟨rfl, hsz, rfl, rfl, by simp [diskAfterImageV2, hrun, hsz, hdry, hbel]⟩)))))
            · exact Or.inr (Or.inr (Or.inr (Or.inr (Or.inr (Or.inr
                ⟨rfl, hsz, rfl, rfl, by
                  rcases hp : env.pipelineRes with _ | e <;>
                    simp [diskAfterImageV2, hrun, hsz, hdry, hbel, hp]⟩)))))
        · exact Or.inr (Or.inr (Or.inr (Or.inl
            ⟨rfl, hsz, rfl, by simp [diskAfterImageV2, hrun, hsz, hdry]⟩)))
    · exact Or.inr (Or.inl ⟨rfl, by simp [diskAfterImageV2, hrun]⟩)

/-- Exhaustive case analysis of the image-resolution head of the
libvirtwrap driver. -/
lemma runDiskCommandV2_cases (vmName : String) (flags : DiskFlags) (env : EnvV2) :
    (flags.image = "" ∧ env.diskPaths = none ∧
      runDiskCommandV2 vmName flags env =
        { outcome := .failGetDisks, trace := [ExtCall2.getDiskPaths vmName] })
    ∨ (flags.image = "" ∧ env.diskPaths = some [] ∧
      runDiskCommandV2 vmName flags env =
        { outcome := .failNoDisks, trace := [ExtCall2.getDiskPaths vmName] })
    ∨ (∃ ip pre,
        ((flags.image ≠ "" ∧ ip = flags.image ∧ pre = ([] : List ExtCall2))
          ∨ (flags.image = "" ∧ pre = [ExtCall2.getDiskPaths vmName] ∧
              ∃ rest, env.diskPaths = some (ip :: rest)))
        ∧ runDiskCommandV2 vmName flags env = diskAfterImageV2 vmName flags env ip pre) := by
  by_cases himg : flags.image = ""
  · rcases hdp : env.diskPaths with _ | ps
    · exact Or.inl ⟨himg, rfl, by simp [runDiskCommandV2, himg, hdp]⟩
    · rcases ps with _ | ⟨p, rest⟩
      · exact Or.inr (Or.inl ⟨himg, rfl, by simp [runDiskCommandV2, himg, hdp]⟩)
      · exact Or.inr (Or.inr ⟨p, [ExtCall2.getDiskPaths vmName],
          Or.inr ⟨himg, rfl, rest, rfl⟩, by simp [runDiskCommandV2, himg, hdp]⟩)
  · exact Or.inr (Or.inr ⟨flags.image, [],
      Or.inl ⟨himg, rfl, rfl⟩, by simp [runDiskCommandV2, himg]⟩)

/-- Sample filesystem used by witnesses: empty. -/
def fsEmpty : FS := fun _ => none

/-- Sample command result: success. -/
def resOK : CmdResult := { ok := true, errText := "", output := "" }

/-- Sample command result: failure with a diagnostic. -/
def resFail : CmdResult := { ok := false, errText := "exit status 1", output := "boom" }

/-- Sample pipeline environment in which every command succeeds. -/
def diskEnvOK : DiskEnv :=
  { createRes := resOK, createContent := "empty-image", resizeRes := resOK,
    resizeContent := "migrated", mvOk := true, mvErrText := "", rmRes := resOK }

/-- Sample pipeline environment in which `qemu-img create` fails. -/
def diskEnvCreateFail : DiskEnv :=
  { createRes := resFail, createContent := "empty-image", resizeRes := resOK,
    resizeContent := "migrated", mvOk := true, mvErrText := "", rmRes := resOK }

/-- Sample pipeline environment in which `virt-resize` and the rollback
`rm` both fail. -/
def diskEnvResizeRmFail : DiskEnv :=
  { createRes := resOK, createContent := "empty-image", resizeRes := resFail,
    resizeContent := "migrated", mvOk := true, mvErrText := "",
    rmRes := { ok := false, errText := "permission denied", output := "rm-out" } }

/-- C1: in every execution of `resizeAndExpandDisk`, each deletion the
pipeline issues targets only the artifact path `imagePath ++ ".new"`; a
move over the original happens only after both the create and the migrate
commands returned success; on any failing run the content of the original path
is unchanged; and on a fully successful run the artifact path no longer
exists and the original path holds the output of the migrate tool. -/
theorem resizeAndExpandDisk_preserves_original
    (env : DiskEnv) (fs : FS) (imagePath device : String) (partition : Int)
    (newSize : String) :
    (∀ p, PipeCmd.rm p ∈ (resizeAndExpandDisk env fs imagePath device partition newSize).trace →
        p = imagePath ++ ".new")
    ∧ (∀ src dst, PipeCmd.mv src dst ∈
        (resizeAndExpandDisk env fs imagePath device partition newSize).trace →
        env.createRes.ok = true ∧ env.resizeRes.ok = true
          ∧ src = imagePath ++ ".new" ∧ dst = imagePath)
    ∧ ((resizeAndExpandDisk env fs imagePath device partition newSize).error ≠ none →
        (resizeAndExpandDisk env fs imagePath device partition newSize).fs imagePath
          = fs imagePath)
    ∧ ((resizeAndExpandDisk env fs imagePath device partition newSize).error = none →
        (resizeAndExpandDisk env fs imagePath device partition newSize).fs (imagePath ++ ".new")
          = none
        ∧ (resizeAndExpandDisk env fs imagePath device partition newSize).fs imagePath
          = some env.resizeContent) := by
  have hne := self_ne_append_new imagePath
  cases hc : env.createRes.ok
  · simp [resizeAndExpandDisk, hc]
  · cases hr : env.resizeRes.ok
    · cases hrm : env.rmRes.ok
      · simp [resizeAndExpandDisk, hc, hr, hrm, fsSet, hne]
      · simp [resizeAndExpandDisk, hc, hr, hrm, fsSet, hne]
    · cases hm : env.mvOk
      · cases hrm : env.rmRes.ok
        · simp [resizeAndExpandDisk, hc, hr, hm, hrm, fsSet, hne]
        · simp [resizeAndExpandDisk, hc, hr, hm, hrm, fsSet, hne]
      · simp [resizeAndExpandDisk, hc, hr, hm, fsSet, hne]

/-- Witness for C1: a fully successful run on a concrete input, where the
artifact is gone and the original holds the migrated content. -/
theorem resizeAndExpandDisk_preserves_original_witness :
    (resizeAndExpandDisk diskEnvOK fsEmpty ("/data/vm1.img") "vda" 1 ("40G")).error = none
    ∧ ((resizeAndExpandDisk diskEnvOK fsEmpty ("/data/vm1.img") "vda" 1 ("40G")).fs
        ("/data/vm1.img" ++ ".new") = none
      ∧ (resizeAndExpandDisk diskEnvOK fsEmpty ("/data/vm1.img") "vda" 1 ("40G")).fs
        "/data/vm1.img" = some diskEnvOK.resizeContent) :=
  ⟨by decide,
    (resizeAndExpandDisk_preserves_original diskEnvOK fsEmpty
      "/data/vm1.img" "vda" 1 ("40G")).2.2.2 (by decide)⟩

/-- C4: the trace of the pipeline always starts with the create command; the
migrate command appears only when create succeeded; the move only when
create and migrate succeeded; and a create failure is terminal: the trace
is the create command alone (no cleanup, no further command), the error
carries the diagnostic of the tool verbatim and the filesystem is unchanged. -/
theorem resizeAndExpandDisk_sequencing
    (env : DiskEnv) (fs : FS) (imagePath device : String) (partition : Int)
    (newSize : String) :
    (∃ rest, (resizeAndExpandDisk env fs imagePath device partition newSize).trace =
        PipeCmd.create (imagePath ++ ".new") newSize :: rest)
    ∧ (∀ dev src dst, PipeCmd.virtResize dev src dst ∈
        (resizeAndExpandDisk env fs imagePath device partition newSize).trace →
        env.createRes.ok = true)
    ∧ (∀ src dst, PipeCmd.mv src dst ∈
        (resizeAndExpandDisk env fs imagePath device partition newSize).trace →
        env.createRes.ok = true ∧ env.resizeRes.ok = true)
    ∧ (env.createRes.ok = false →
        (resizeAndExpandDisk env fs imagePath device partition newSize).trace =
          [PipeCmd.create (imagePath ++ ".new") newSize]
        ∧ (resizeAndExpandDisk env fs imagePath device partition newSize).error =
            some ("failed to create new image: " ++ env.createRes.errText
              ++ ", output: " ++ env.createRes.output)
        ∧ ∀ q, (resizeAndExpandDisk env fs imagePath device partition newSize).fs q = fs q) := by
  cases hc : env.createRes.ok
  · simp [resizeAndExpandDisk, hc]
  · cases hr : env.resizeRes.ok
    · cases hrm : env.rmRes.ok
      · simp [resizeAndExpandDisk, hc, hr, hrm]
      · simp [resizeAndExpandDisk, hc, hr, hrm]
    · cases hm : env.mvOk
      · cases hrm : env.rmRes.ok
        · simp [resizeAndExpandDisk, hc, hr, hm, hrm]
        · simp [resizeAndExpandDisk, hc, hr, hm, hrm]
      · simp [resizeAndExpandDisk, hc, hr, hm]

/-- Witness for C4: a run whose create step fails at a concrete input
stops after the create command with the diagnostic in the error. -/
theorem resizeAndExpandDisk_sequencing_witness :
    diskEnvCreateFail.createRes.ok = false
    ∧ (resizeAndExpandDisk diskEnvCreateFail fsEmpty ("/a.img") "vda" 1 ("40G")).trace =
        [PipeCmd.create ("/a.img" ++ ".new") "40G"] :=
  ⟨by decide,
    ((resizeAndExpandDisk_sequencing diskEnvCreateFail fsEmpty
      "/a.img" "vda" 1 ("40G")).2.2.2 (by decide)).1⟩

/-- C3: when the migrate or the replace step fails, the pipeline issues a
deletion of the artifact `imagePath ++ ".new"` and returns an error; if
that deletion succeeded the error text states the new image was removed,
and if the deletion also failed the error text contains both the failing
diagnostic of the failing step and the diagnostic of the deletion. -/
theorem resizeAndExpandDisk_rollback_reporting
    (env : DiskEnv) (fs : FS) (imagePath device : String) (partition : Int)
    (newSize : String) (hc : env.createRes.ok = true) :
    (env.resizeRes.ok = false →
      PipeCmd.rm (imagePath ++ ".new") ∈
        (resizeAndExpandDisk env fs imagePath device partition newSize).trace
      ∧ ∃ e, (resizeAndExpandDisk env fs imagePath device partition newSize).error = some e
        ∧ strContains e env.resizeRes.errText
        ∧ strContains e env.resizeRes.output
        ∧ (env.rmRes.ok = true → strContains e ("New image was removed."))
        ∧ (env.rmRes.ok = false →
            strContains e env.rmRes.errText ∧ strContains e env.rmRes.output))
    ∧ (env.resizeRes.ok = true → env.mvOk = false →
      PipeCmd.rm (imagePath ++ ".new") ∈
        (resizeAndExpandDisk env fs imagePath device partition newSize).trace
      ∧ ∃ e, (resizeAndExpandDisk env fs imagePath device partition newSize).error = some e
        ∧ strContains e env.mvErrText
        ∧ (env.rmRes.ok = true → strContains e ("New image was removed."))
        ∧ (env.rmRes.ok = false →
            strContains e env.rmRes.errText ∧ strContains e env.rmRes.output)) := by
  constructor
  · intro hr
    cases hrm : env.rmRes.ok
    · refine ⟨by simp [resizeAndExpandDisk, hc, hr, hrm],
        "virt-resize failed: " ++ env.resizeRes.errText
          ++ ", output: " ++ env.resizeRes.output
          ++ ". Additionally, failed to remove new image: " ++ env.rmRes.errText
          ++ ", output: " ++ env.rmRes.output,
        by simp [resizeAndExpandDisk, hc, hr, hrm], ?_, ?_, ?_, ?_⟩
      · exact strContains_appL _ (strContains_appL _ (strContains_appL _
          (strContains_appL _ (strContains_appL _ (strContains_appL _
            (strContains_appR _ (strContains_refl _)))))))
      · exact strContains_appL _ (strContains_appL _ (strContains_appL _
          (strContains_appL _ (strContains_appR _ (strContains_refl _)))))
      · intro h; exact absurd h (by decide)
      · intro _
        exact ⟨strContains_appL _ (strContains_appL _ (strContains_appR _ (strContains_refl _))),
          strContains_appR _ (strContains_refl _)⟩
    · refine ⟨by simp [resizeAndExpandDisk, hc, hr, hrm],
        "virt-resize failed: " ++ env.resizeRes.errText
          ++ ", output: " ++ env.resizeRes.output ++ ". New image was removed.",
        by simp [resizeAndExpandDisk, hc, hr, hrm], ?_, ?_, ?_, ?_⟩
      · exact strContains_appL _ (strContains_appL _ (strContains_appL _
          (strContains_appR _ (strContains_refl _))))
      · exact strContains_appL _ (strContains_appR _ (strContains_refl _))
      · intro _; exact strContains_appR _ ⟨". ".data, [], by decide⟩
      · intro h; exact absurd h (by decide)
  · intro hr hm
    cases hrm : env.rmRes.ok
    · refine ⟨by simp [resizeAndExpandDisk, hc, hr, hm, hrm],
        "failed to replace original image: " ++ env.mvErrText
          ++ ". Additionally, failed to remove new image: " ++ env.rmRes.errText
          ++ ", output: " ++ env.rmRes.output,
        by simp [resizeAndExpandDisk, hc, hr, hm, hrm], ?_, ?_, ?_⟩
      · exact strContains_appL _ (strContains_appL _ (strContains_appL _
          (strContains_appL _ (strContains_appR _ (strContains_refl _)))))
      · intro h; exact absurd h (by decide)
      · intro _
        exact ⟨strContains_appL _ (strContains_appL _ (strContains_appR _ (strContains_refl _))),
          strContains_appR _ (strContains_refl _)⟩
    · refine ⟨by simp [resizeAndExpandDisk, hc, hr, hm, hrm],
        "failed to replace original image: " ++ env.mvErrText ++ ". New image was removed.",
        by simp [resizeAndExpandDisk, hc, hr, hm, hrm], ?_, ?_, ?_⟩
      · exact strContains_appL _ (strContains_appR _ (strContains_refl _))
      · intro _; exact strContains_appR _ ⟨". ".data, [], by decide⟩
      · intro h; exact absurd h (by decide)

/-- Witness for C3: on a concrete input whose migrate and rollback both
fail, the artifact deletion is attempted. -/
theorem resizeAndExpandDisk_rollback_reporting_witness :
    diskEnvResizeRmFail.createRes.ok = true
    ∧ diskEnvResizeRmFail.resizeRes.ok = false
    ∧ PipeCmd.rm ("/a.img" ++ ".new") ∈
        (resizeAndExpandDisk diskEnvResizeRmFail fsEmpty ("/a.img") "vda" 1 ("40G")).trace :=
  ⟨by decide, by decide,
    ((resizeAndExpandDisk_rollback_reporting diskEnvResizeRmFail fsEmpty
      "/a.img" "vda" 1 ("40G") (by decide)).1 (by decide)).1⟩

/-- Sample two-call environment whose maximum call fails. -/
def twoEnvMaxFail : TwoCallEnv := { maxRes := resFail, curRes := resOK }

/-- C9: `changeCPUCount` and `changeMemorySize` issue the maximum call
first and the current call second; when the maximum call fails the
current call is not attempted and the error names the maximum call; when
the current call fails the error names the current call. -/
theorem twoCall_mutators_order_and_errors
    (env : TwoCallEnv) (vmName : String) (cpuCount : Int) (memorySize : String) :
    (env.maxRes.ok = false →
      changeCPUCount env vmName cpuCount =
        ([VirshCall.setvcpusMax vmName cpuCount],
          some ("failed to set maximum CPU count: " ++ env.maxRes.errText))
      ∧ changeMemorySize env vmName memorySize =
        ([VirshCall.setmaxmem vmName memorySize],
          some ("failed to set maximum memory: " ++ env.maxRes.errText
            ++ ", output: " ++ env.maxRes.output)))
    ∧ (env.maxRes.ok = true → env.curRes.ok = false →
      changeCPUCount env vmName cpuCount =
        ([VirshCall.setvcpusMax vmName cpuCount, VirshCall.setvcpusCur vmName cpuCount],
          some ("failed to set current CPU count: " ++ env.curRes.errText))
      ∧ changeMemorySize env vmName memorySize =
        ([VirshCall.setmaxmem vmName memorySize, VirshCall.setmem vmName memorySize],
          some ("failed to set current memory: " ++ env.curRes.errText
            ++ ", output: " ++ env.curRes.output)))
    ∧ (env.maxRes.ok = true → env.curRes.ok = true →
      changeCPUCount env vmName cpuCount =
        ([VirshCall.setvcpusMax vmName cpuCount, VirshCall.setvcpusCur vmName cpuCount], none)
      ∧ changeMemorySize env vmName memorySize =
        ([VirshCall.setmaxmem vmName memorySize, VirshCall.setmem vmName memorySize], none)) := by
  refine ⟨fun h => ?_, fun h1 h2 => ?_, fun h1 h2 => ?_⟩
  · exact ⟨by simp [changeCPUCount, h], by simp [changeMemorySize, h]⟩
  · exact ⟨by simp [changeCPUCount, h1, h2], by simp [changeMemorySize, h1, h2]⟩
  · exact ⟨by simp [changeCPUCount, h1, h2], by simp [changeMemorySize, h1, h2]⟩

/-- Witness for C9: with a failing maximum call at a concrete input, only
the maximum call is issued and the error names it. -/
theorem twoCall_mutators_order_and_errors_witness :
    twoEnvMaxFail.maxRes.ok = false
    ∧ changeCPUCount twoEnvMaxFail ("vm1") 4 =
        ([VirshCall.setvcpusMax ("vm1") 4],
          some ("failed to set maximum CPU count: " ++ twoEnvMaxFail.maxRes.errText)) :=
  ⟨by decide,
    ((twoCall_mutators_order_and_errors twoEnvMaxFail ("vm1") 4 ("8G")).1 (by decide)).1⟩

lemma v1_stopped_false_aborts (vmName : String) (flags : DiskFlags) (env : EnvV1)
    (hstop : isVMStopped env.listRunningRes vmName = false) :
    (∀ c, ExtCall.pipe c ∉ (runDiskCommandV1 vmName flags env).trace)
    ∧ (∀ q, (runDiskCommandV1 vmName flags env).fs q = env.fs q)
    ∧ (flags.image ≠ "" → (runDiskCommandV1 vmName flags env).outcome = .failVMRunning)
    ∧ (∀ d rest, flags.image = "" → getVMDisks env.xml = .ok (d :: rest) →
        (runDiskCommandV1 vmName flags env).outcome = .failVMRunning) := by
  rcases runDiskCommandV1_cases vmName flags env with
    ⟨himg, e, hgd, hR⟩ | ⟨himg, hgd, hR⟩ | ⟨ip, pre, hres, hR⟩
  · rw [hR]
    exact ⟨by simp, fun q => rfl, fun h => absurd himg h,
      fun d rest _ hok => by rw [hgd] at hok; simp at hok⟩
  · rw [hR]
    exact ⟨by simp, fun q => rfl, fun h => absurd himg h,
      fun d rest _ hok => by rw [hgd] at hok; simp at hok⟩
  · rcases diskAfterImage_cases vmName flags env ip pre with
      ⟨_, hD⟩ | ⟨hst, _⟩ | ⟨hst, _⟩ | ⟨hst, _⟩ | ⟨hst, _⟩
    · rw [hR, hD]
      rcases hres with ⟨_, _, hpre⟩ | ⟨_, hpre, _⟩ <;> subst hpre <;>
        exact ⟨by simp, fun q => rfl, fun _ => rfl, fun _ _ _ _ => rfl⟩
    all_goals (rw [hstop] at hst; exact absurd hst (by decide))

/-- C2: when the control plane reports the VM name among the running VMs,
the standalone disk driver executes no pipeline command, leaves the
filesystem unchanged, and, once the image path has been resolved, reports
the vm-running precondition failure. -/
theorem runDiskCommandV1_running_aborts
    (vmName : String) (flags : DiskFlags) (env : EnvV1) (out : String)
    (hq : env.listRunningRes = some out)
    (hmem : vmName.data ∈ splitNl (trimSpace out.data)) :
    (∀ c, ExtCall.pipe c ∉ (runDiskCommandV1 vmName flags env).trace)
    ∧ (∀ q, (runDiskCommandV1 vmName flags env).fs q = env.fs q)
    ∧ (flags.image ≠ "" → (runDiskCommandV1 vmName flags env).outcome = .failVMRunning)
    ∧ (∀ d rest, flags.image = "" → getVMDisks env.xml = .ok (d :: rest) →
        (runDiskCommandV1 vmName flags env).outcome = .failVMRunning) := by
  have hstop : isVMStopped env.listRunningRes vmName = false := by
    rw [hq]
    simp only [isVMStopped]
    rw [Bool.eq_false_iff]
    intro hall
    rw [List.all_eq_true] at hall
    have hv := hall vmName.data hmem
    simp at hv
  exact v1_stopped_false_aborts vmName flags env hstop

/-- Sample dumpxml oracle; unused because the image flag is explicit. -/
def xmlUnused : DumpXMLEnv := { cmdOk := true, parseOk := true, disks := [] }

/-- Sample flags for a non-dry-run disk expansion with an explicit image. -/
def flagsRun : DiskFlags :=
  { image := "/data/vm1.img", device := "vda", partition := 1, size := "40G", dryRun := false }

/-- Sample driver environment in which vm1 is reported running. -/
def envRunning : EnvV1 :=
  { xml := xmlUnused, listRunningRes := some ("vm1\nvm2"), stdinLine := "y",
    disk := diskEnvOK, fs := fsEmpty }

/-- Witness for C2: vm1 appears in the running-VM listing, and its
disk-expand run fails with the vm-running error. -/
theorem runDiskCommandV1_running_aborts_witness :
    envRunning.listRunningRes = some ("vm1\nvm2")
    ∧ "vm1".data ∈ splitNl (trimSpace ("vm1\nvm2").data)
    ∧ (runDiskCommandV1 ("vm1") flagsRun envRunning).outcome = DiskOutcome.failVMRunning :=
  ⟨rfl, by decide,
    (runDiskCommandV1_running_aborts ("vm1") flagsRun envRunning ("vm1\nvm2")
      rfl (by decide)).2.2.1 (by decide)⟩

/-- C10: when the running-VM query itself fails, `isVMStopped` returns
false for every VM name, so the standalone driver aborts on the same
vm-running path with no pipeline command and no filesystem change. -/
theorem isVMStopped_query_failure
    (vmName : String) (flags : DiskFlags) (env : EnvV1)
    (hq : env.listRunningRes = none) :
    isVMStopped none vmName = false
    ∧ (∀ c, ExtCall.pipe c ∉ (runDiskCommandV1 vmName flags env).trace)
    ∧ (∀ q, (runDiskCommandV1 vmName flags env).fs q = env.fs q)
    ∧ (flags.image ≠ "" → (runDiskCommandV1 vmName flags env).outcome = .failVMRunning) := by
  have hstop : isVMStopped env.listRunningRes vmName = false := by rw [hq]; rfl
  have h := v1_stopped_false_aborts vmName flags env hstop
  exact ⟨rfl, h.1, h.2.1, h.2.2.1⟩

/-- Sample driver environment whose running-VM query fails. -/
def envQueryFail : EnvV1 :=
  { xml := xmlUnused, listRunningRes := none, stdinLine := "y",
    disk := diskEnvOK, fs := fsEmpty }

/-- Witness for C10: a failed query makes a concrete run abort as
vm-running. -/
theorem isVMStopped_query_failure_witness :
    envQueryFail.listRunningRes = none
    ∧ isVMStopped none ("vm1") = false
    ∧ (runDiskCommandV1 ("vm1") flagsRun envQueryFail).outcome = DiskOutcome.failVMRunning :=
  ⟨rfl, (isVMStopped_query_failure ("vm1") flagsRun envQueryFail rfl).1,
    (isVMStopped_query_failure ("vm1") flagsRun envQueryFail rfl).2.2.2 (by decide)⟩

/-- C5: in every non-dry-run invocation of the standalone disk driver, a
pipeline command executes only when the trimmed, lowered standard-input
response is the affirmative y or yes; with any other response (n, empty,
anything else), once the prompt is reached the run is cancelled: outcome
cancelled with exit status 0, distinct from every outcome that exits 1,
no pipeline command executed and no filesystem change. -/
theorem runDiskCommandV1_confirmation_gate
    (vmName : String) (flags : DiskFlags) (env : EnvV1)
    (hdry : flags.dryRun = false) :
    ((∃ c, ExtCall.pipe c ∈ (runDiskCommandV1 vmName flags env).trace) →
      affirmative env.stdinLine)
    ∧ (¬ affirmative env.stdinLine →
      isVMStopped env.listRunningRes vmName = true →
      flags.size ≠ "" →
      (flags.image = "" → ∃ d rest, getVMDisks env.xml = .ok (d :: rest)) →
      (runDiskCommandV1 vmName flags env).outcome = .cancelled
      ∧ exitCode (runDiskCommandV1 vmName flags env).outcome = 0
      ∧ (∀ o, exitCode o = 1 → (runDiskCommandV1 vmName flags env).outcome ≠ o)
      ∧ (∀ c, ExtCall.pipe c ∉ (runDiskCommandV1 vmName flags env).trace)
      ∧ (∀ q, (runDiskCommandV1 vmName flags env).fs q = env.fs q)) := by
  constructor
  · rintro ⟨c, hcmem⟩
    rcases runDiskCommandV1_cases vmName flags env with
      ⟨_, e, _, hR⟩ | ⟨_, _, hR⟩ | ⟨ip, pre, hres, hR⟩
    · rw [hR] at hcmem; simp at hcmem
    · rw [hR] at hcmem; simp at hcmem
    · rcases diskAfterImage_cases vmName flags env ip pre with
        ⟨_, hD⟩ | ⟨_, _, hD⟩ | ⟨_, _, _, hD⟩ | ⟨_, _, _, _, hD⟩ | ⟨_, _, _, haff, hD⟩
      · rw [hR, hD] at hcmem
        rcases hres with ⟨_, _, hpre⟩ | ⟨_, hpre, _⟩ <;> subst hpre <;> simp at hcmem
      · rw [hR, hD] at hcmem
        rcases hres with ⟨_, _, hpre⟩ | ⟨_, hpre, _⟩ <;> subst hpre <;> simp at hcmem
      · rw [hR, hD] at hcmem
        rcases hres with ⟨_, _, hpre⟩ | ⟨_, hpre, _⟩ <;> subst hpre <;> simp at hcmem
      · rw [hR, hD] at hcmem
        rcases hres with ⟨_, _, hpre⟩ | ⟨_, hpre, _⟩ <;> subst hpre <;> simp at hcmem
      · exact haff
  · intro hnaff hstop hsz hresolve
    rcases runDiskCommandV1_cases vmName flags env with
      ⟨himg, e, hgd, hR⟩ | ⟨himg, hgd, hR⟩ | ⟨ip, pre, hres, hR⟩
    · obtain ⟨d, rest, hok⟩ := hresolve himg
      rw [hgd] at hok; simp at hok
    · obtain ⟨d, rest, hok⟩ := hresolve himg
      rw [hgd] at hok; simp at hok
    · rcases diskAfterImage_cases vmName flags env ip pre with
        ⟨hst, _⟩ | ⟨_, hsz2, _⟩ | ⟨_, _, hdry2, _⟩ | ⟨_, _, _, _, hD⟩ | ⟨_, _, _, haff, _⟩
      · rw [hstop] at hst; exact absurd hst (by decide)
      · exact absurd hsz2 hsz
      · rw [hdry] at hdry2; exact absurd hdry2 (by decide)
      · rw [hR, hD]
        refine ⟨rfl, rfl, ?_, ?_, fun q => rfl⟩
        · intro o h1 h2
          rw [← h2] at h1
          simp [exitCode] at h1
        · rcases hres with ⟨_, _, hpre⟩ | ⟨_, hpre, _⟩ <;> subst hpre <;> simp
      · exact absurd haff hnaff

/-- Sample driver environment: VM stopped, user answers n at the prompt. -/
def envCancel : EnvV1 :=
  { xml := xmlUnused, listRunningRes := some (""), stdinLine := "n",
    disk := diskEnvOK, fs := fsEmpty }

/-- Witness for C5: answering n at a concrete prompt cancels the run. -/
theorem runDiskCommandV1_confirmation_gate_witness :
    flagsRun.dryRun = false
    ∧ ¬ affirmative ("n")
    ∧ (runDiskCommandV1 ("vm1") flagsRun envCancel).outcome = DiskOutcome.cancelled :=
  ⟨rfl, by decide,
    ((runDiskCommandV1_confirmation_gate ("vm1") flagsRun envCancel rfl).2
      (by decide) (by decide) (by decide)
      (fun h => absurd h (by decide))).1⟩

/-- Sample flags for the dry-run example of the spec. -/
def flagsDry : DiskFlags :=
  { image := "/data/vm1.img", device := "vda", partition := 1, size := "40G", dryRun := true }

/-- Sample driver environment with no running VMs. -/
def envDry : EnvV1 :=
  { xml := xmlUnused, listRunningRes := some (""), stdinLine := "",
    disk := diskEnvOK, fs := fsEmpty }

/-- Counterexample to C7 as stated: in the dry-run example of the claim itself the
driver does perform the VM State Oracle running-VM query — an external
command — before printing the preview: the executed-command trace of the
run is exactly that query. -/
theorem dryRun_counterexample :
    flagsDry.dryRun = true
    ∧ (runDiskCommandV1 ("vm1") flagsDry envDry).trace = [ExtCall.listRunning]
    ∧ ExtCall.listRunning ∈ (runDiskCommandV1 ("vm1") flagsDry envDry).trace :=
  ⟨rfl, by decide, by decide⟩

/-- C7 amended: with the dry-run flag set and an explicit image, once the
VM is reported stopped and a size was given, the driver prints exactly
the three pipeline command lines (create, migrate, replace) in pipeline
order with the sudo prefix, referencing the artifact path
`image ++ ".new"`; it executes no pipeline command and leaves the
filesystem unchanged, but the running-VM query has been performed first:
the executed-command trace is exactly that query. -/
theorem dryRun_preview
    (vmName : String) (flags : DiskFlags) (env : EnvV1)
    (hdry : flags.dryRun = true) (himg : flags.image ≠ "")
    (hstop : isVMStopped env.listRunningRes vmName = true)
    (hsz : flags.size ≠ "") :
    (runDiskCommandV1 vmName flags env).outcome = .dryRunShown
    ∧ (runDiskCommandV1 vmName flags env).trace = [ExtCall.listRunning]
    ∧ (runDiskCommandV1 vmName flags env).preview =
      [ "Command: sudo qemu-img create -f qcow2 -o preallocation=metadata "
          ++ (flags.image ++ ".new") ++ " " ++ flags.size,
        "Command: sudo virt-resize --expand /dev/" ++ flags.device
          ++ toString flags.partition ++ " " ++ flags.image ++ " "
          ++ (flags.image ++ ".new"),
        "Command: sudo mv " ++ (flags.image ++ ".new") ++ " " ++ flags.image ]
    ∧ (∀ q, (runDiskCommandV1 vmName flags env).fs q = env.fs q) := by
  rcases runDiskCommandV1_cases vmName flags env with
    ⟨himg2, _, _, _⟩ | ⟨himg2, _, _⟩ | ⟨ip, pre, hres, hR⟩
  · exact absurd himg2 himg
  · exact absurd himg2 himg
  · rcases hres with ⟨_, hip, hpre⟩ | ⟨himg2, _, _⟩
    · subst hip; subst hpre
      rcases diskAfterImage_cases vmName flags env flags.image [] with
        ⟨hst, _⟩ | ⟨_, hsz2, _⟩ | ⟨_, _, _, hD⟩ | ⟨_, _, hdry2, _⟩ | ⟨_, _, hdry2, _⟩
      · rw [hstop] at hst; exact absurd hst (by decide)
      · exact absurd hsz2 hsz
      · rw [hR, hD]
        exact ⟨rfl, rfl, by simp [printResizeCommand], fun q => rfl⟩
      · rw [hdry] at hdry2; exact absurd hdry2 (by decide)
      · rw [hdry] at hdry2; exact absurd hdry2 (by decide)
    · exact absurd himg2 himg

/-- Witness for C7 amended: the example input of the spec yields exactly the
three expected command lines around /data/vm1.img.new. -/
theorem dryRun_preview_witness :
    flagsDry.dryRun = true
    ∧ (runDiskCommandV1 ("vm1") flagsDry envDry).preview =
      [ "Command: sudo qemu-img create -f qcow2 -o preallocation=metadata /data/vm1.img.new 40G",
        "Command: sudo virt-resize --expand /dev/vda1 /data/vm1.img /data/vm1.img.new",
        "Command: sudo mv /data/vm1.img.new /data/vm1.img" ] := by
  refine ⟨rfl, ?_⟩
  have h := (dryRun_preview ("vm1") flagsDry envDry rfl (by decide) (by decide) (by decide)).2.2.1
  rw [h]
  decide

/-- Sample flags with an empty target size. -/
def flagsNoSize : DiskFlags :=
  { image := "/data/vm1.img", device := "vda", partition := 1, size := "", dryRun := false }

/-- Counterexample to C8 as stated: with an empty size, an explicit image
and a stopped VM, the driver reports the no-size configuration error only
after executing the running-VM control-plane query: the trace of the run
is that query, not empty. -/
theorem emptySize_counterexample :
    flagsNoSize.size = ""
    ∧ (runDiskCommandV1 ("vm1") flagsNoSize envDry).outcome = DiskOutcome.failNoSize
    ∧ (runDiskCommandV1 ("vm1") flagsNoSize envDry).trace = [ExtCall.listRunning] :=
  ⟨rfl, by decide, by decide⟩

/-- C8 amended: an empty target size always produces a failing outcome
(exit status 1) with no pipeline command executed and no filesystem
change; with an explicit image and the VM reported stopped, the failure is
the no-size configuration error, and it is reported only after the
running-VM query: the executed-command trace is exactly that query. -/
theorem emptySize_config_error
    (vmName : String) (flags : DiskFlags) (env : EnvV1)
    (hsz : flags.size = "") :
    exitCode (runDiskCommandV1 vmName flags env).outcome = 1
    ∧ (∀ c, ExtCall.pipe c ∉ (runDiskCommandV1 vmName flags env).trace)
    ∧ (∀ q, (runDiskCommandV1 vmName flags env).fs q = env.fs q)
    ∧ (flags.image ≠ "" → isVMStopped env.listRunningRes vmName = true →
        (runDiskCommandV1 vmName flags env).outcome = .failNoSize
        ∧ (runDiskCommandV1 vmName flags env).trace = [ExtCall.listRunning]) := by
  rcases runDiskCommandV1_cases vmName flags env with
    ⟨himg, e, hgd, hR⟩ | ⟨himg, hgd, hR⟩ | ⟨ip, pre, hres, hR⟩
  · rw [hR]
    exact ⟨rfl, by simp, fun q => rfl, fun h _ => absurd himg h⟩
  · rw [hR]
    exact ⟨rfl, by simp, fun q => rfl, fun h _ => absurd himg h⟩
  · rcases diskAfterImage_cases vmName flags env ip pre with
      ⟨hst0, hD⟩ | ⟨hst, _, hD⟩ | ⟨_, hsz2, _⟩ | ⟨_, hsz2, _⟩ | ⟨_, hsz2, _⟩
    · rw [hR, hD]
      refine ⟨rfl, ?_, fun q => rfl, ?_⟩
      · rcases hres with ⟨_, _, hpre⟩ | ⟨_, hpre, _⟩ <;> subst hpre <;> simp
      · intro _ hstop
        rw [hstop] at hst0
        exact absurd hst0 (by decide)
    · rw [hR, hD]
      refine ⟨rfl, ?_, fun q => rfl, ?_⟩
      · rcases hres with ⟨_, _, hpre⟩ | ⟨_, hpre, _⟩ <;> subst hpre <;> simp
      · intro himg2 _
        rcases hres with ⟨_, _, hpre⟩ | ⟨himg3, _, _⟩
        · subst hpre; exact ⟨rfl, rfl⟩
        · exact absurd himg3 himg2
    · exact absurd hsz hsz2
    · exact absurd hsz hsz2
    · exact absurd hsz hsz2

/-- Witness for C8 amended: the concrete empty-size run exits 1. -/
theorem emptySize_config_error_witness :
    flagsNoSize.size = ""
    ∧ exitCode (runDiskCommandV1 ("vm1") flagsNoSize envDry).outcome = 1 :=
  ⟨rfl, (emptySize_config_error ("vm1") flagsNoSize envDry rfl).1⟩

/-- C6: in every non-dry-run invocation of the libvirtwrap disk driver, a
pipeline call occurs only after the ownership verification call, placed
immediately before it in the trace, has returned true; when verification
reports a mismatch the run fails with the ownership precondition error
and no pipeline call occurs. -/
theorem runDiskCommandV2_ownership_guard
    (vmName : String) (flags : DiskFlags) (env : EnvV2)
    (hdry : flags.dryRun = false) :
    ((∃ ip, ExtCall2.pipelineCall ip flags.device flags.partition flags.size ∈
        (runDiskCommandV2 vmName flags env).trace) →
      env.belongsRes = some true
      ∧ ∃ pre ip, (runDiskCommandV2 vmName flags env).trace =
          pre ++ [ExtCall2.verifyDisk vmName ip,
            ExtCall2.pipelineCall ip flags.device flags.partition flags.size])
    ∧ (env.belongsRes = some false →
      env.isRunningRes = some false →
      flags.size ≠ "" →
      (flags.image = "" → ∃ p rest, env.diskPaths = some (p :: rest)) →
      (runDiskCommandV2 vmName flags env).outcome = .failOwnershipMismatch
      ∧ ∀ ip dv pt sz, ExtCall2.pipelineCall ip dv pt sz ∉
          (runDiskCommandV2 vmName flags env).trace) := by
  constructor
  · rintro ⟨ip0, hmem⟩
    rcases runDiskCommandV2_cases vmName flags env with
      ⟨_, _, hR⟩ | ⟨_, _, hR⟩ | ⟨ip, pre, hres, hR⟩
    · rw [hR] at hmem; simp at hmem
    · rw [hR] at hmem; simp at hmem
    · rcases diskAfterImageV2_cases vmName flags env ip pre with
        ⟨_, hD⟩ | ⟨_, hD⟩ | ⟨_, _, hD⟩ | ⟨_, _, hdry2, _⟩ | ⟨_, _, _, _, hD⟩ |
        ⟨_, _, _, _, hD⟩ | ⟨_, _, _, hbel, hD⟩
      · rw [hR, hD] at hmem
        rcases hres with ⟨_, _, hpre⟩ | ⟨_, hpre, _⟩ <;> subst hpre <;> simp at hmem
      · rw [hR, hD] at hmem
        rcases hres with ⟨_, _, hpre⟩ | ⟨_, hpre, _⟩ <;> subst hpre <;> simp at hmem
      · rw [hR, hD] at hmem
        rcases hres with ⟨_, _, hpre⟩ | ⟨_, hpre, _⟩ <;> subst hpre <;> simp at hmem
      · rw [hdry] at hdry2; exact absurd hdry2 (by decide)
      · rw [hR, hD] at hmem
        rcases hres with ⟨_, _, hpre⟩ | ⟨_, hpre, _⟩ <;> subst hpre <;> simp at hmem
      · rw [hR, hD] at hmem
        rcases hres with ⟨_, _, hpre⟩ | ⟨_, hpre, _⟩ <;> subst hpre <;> simp at hmem
      · refine ⟨hbel, pre ++ [ExtCall2.isRunningQ vmName], ip, ?_⟩
        rw [hR, hD]
        simp
  · intro hbel hrun hsz hresolve
    rcases runDiskCommandV2_cases vmName flags env with
      ⟨himg, hdp, hR⟩ | ⟨himg, hdp, hR⟩ | ⟨ip, pre, hres, hR⟩
    · obtain ⟨p, rest, hok⟩ := hresolve himg
      rw [hdp] at hok; simp at hok
    · obtain ⟨p, rest, hok⟩ := hresolve himg
      rw [hdp] at hok; simp at hok
    · rcases diskAfterImageV2_cases vmName flags env ip pre with
        ⟨hrn, _⟩ | ⟨hrn, _⟩ | ⟨_, hsz2, _⟩ | ⟨_, _, hdry2, _⟩ | ⟨_, _, _, hbel2, _⟩ |
        ⟨_, _, _, _, hD⟩ | ⟨_, _, _, hbel2, _⟩
      · rw [hrun] at hrn; simp at hrn
      · rw [hrun] at hrn; simp at hrn
      · exact absurd hsz2 hsz
      · rw [hdry] at hdry2; exact absurd hdry2 (by decide)
      · rw [hbel] at hbel2; simp at hbel2
      · rw [hR, hD]
        refine ⟨rfl, ?_⟩
        intro ip2 dv pt sz
        rcases hres with ⟨_, _, hpre⟩ | ⟨_, hpre, _⟩ <;> subst hpre <;> simp
      · rw [hbel] at hbel2; simp at hbel2

/-- Sample libvirtwrap environment reporting an ownership mismatch. -/
def envV2Mismatch : EnvV2 :=
  { diskPaths := some ["/d.img"], isRunningRes := some false,
    belongsRes := some false, pipelineRes := none }

/-- Witness for C6: a concrete mismatch run fails with the ownership
error. -/
theorem runDiskCommandV2_ownership_guard_witness :
    flagsRun.dryRun = false
    ∧ envV2Mismatch.belongsRes = some false
    ∧ (runDiskCommandV2 ("vm1") flagsRun envV2Mismatch).outcome =
        OutcomeV2.failOwnershipMismatch :=
  ⟨rfl, rfl,
    ((runDiskCommandV2_ownership_guard ("vm1") flagsRun envV2Mismatch rfl).2
      rfl rfl (by decide) (fun h => absurd h (by decide))).1⟩

end KvmVmTune
